import Mathlib

/-!
Shallow embedding of the PID-controlled servo emulator
(src/pid_controller.hpp, src/tof_sensor.hpp, src/servo.hpp).

The C++ code computes with `double`; the embedding models the arithmetic
exactly over ℚ (every constant occurring in the claims is rational, and
the algebraic structure of the transitions is what the spec describes).
Each struct becomes a Lean structure with the same fields and defaults;
each mutating member function becomes a state-passing function applying
the same field updates in the same order.
-/

/-- Embedding of `struct pid_controller` (src/pid_controller.hpp).
Field defaults mirror the in-class initializers (all zero). -/
structure pid_controller where
  target : ℚ := 0
  output : ℚ := 0
  input : ℚ := 0
  kp : ℚ := 0
  ki : ℚ := 0
  kd : ℚ := 0
  integrate : ℚ := 0
  derivate : ℚ := 0
  last_error : ℚ := 0
  output_min : ℚ := 0
  output_max : ℚ := 0
deriving DecidableEq, Repr

namespace pid_controller

/-- `pid_controller::init`: sets the six parameters, touches nothing else. -/
def init (c : pid_controller) (target output_min output_max kp ki kd : ℚ) :
    pid_controller :=
  { c with
    target := target
    output_min := output_min
    output_max := output_max
    kp := kp
    ki := ki
    kd := kd }

/-- `pid_controller::check_output`: clamps `output` to the nearest boundary
of `[output_min, output_max]` exactly as the two-branch conditional does. -/
def check_output (c : pid_controller) : pid_controller :=
  if c.output < c.output_min then { c with output := c.output_min }
  else if c.output > c.output_max then { c with output := c.output_max }
  else c

/-- `pid_controller::regulate`: the sequential field mutations of the source,
as explicit state passing (the `let` chain preserves the mutation order). -/
def regulate (c : pid_controller) (new_input : ℚ) : pid_controller :=
  let error := c.target - new_input
  let c1 := { c with input := new_input }
  let c2 := { c1 with integrate := c1.integrate + error }
  let c3 := { c2 with derivate := error - c2.last_error }
  let c4 := { c3 with
    output := c3.target + c3.kp * error + c3.ki * c3.integrate + c3.kd * c3.derivate }
  let c5 := { c4 with last_error := error }
  c5.check_output

/-- A finite sequence of `regulate` calls, one per list element. -/
def run_list (c : pid_controller) (inputs : List ℚ) : pid_controller :=
  inputs.foldl regulate c

end pid_controller

/-- Embedding of `struct tof_sensor` (src/tof_sensor.hpp).
Field defaults mirror `DEFAULT_MIN = 0.0`, `DEFAULT_MAX = 1023.0`, `val = 0`. -/
structure tof_sensor where
  min : ℚ := 0
  max : ℚ := 1023
  val : ℚ := 0
deriving DecidableEq, Repr

namespace tof_sensor

/-- `tof_sensor::init`: coerces a negative minimum to 0 and a maximum not
exceeding the caller-supplied minimum to the default 1023. `val` is untouched. -/
def init (s : tof_sensor) (sensor_min sensor_max : ℚ) : tof_sensor :=
  { s with
    min := if sensor_min ≥ 0 then sensor_min else 0
    max := if sensor_max > sensor_min then sensor_max else 1023 }

/-- `tof_sensor::check_sensor_value`: clamps `val` to the nearest boundary
of `[min, max]` exactly as the two-branch conditional does. -/
def check_sensor_value (s : tof_sensor) : tof_sensor :=
  if s.val < s.min then { s with val := s.min }
  else if s.val > s.max then { s with val := s.max }
  else s

/-- `tof_sensor::read_from_terminal`: the value read from the terminal is the
explicit argument `v` (the I/O source is outside the core); the function
assigns it and clamps, exactly as the source does. -/
def read_from_terminal (s : tof_sensor) (v : ℚ) : tof_sensor :=
  check_sensor_value { s with val := v }

/-- `tof_sensor::input_range`: `max - min`. -/
def input_range (s : tof_sensor) : ℚ := s.max - s.min

end tof_sensor

/-- Embedding of `struct servo` (src/servo.hpp): one PID controller and two
TOF sensors, default-constructed as in the C++ member declarations. -/
structure servo where
  pid : pid_controller := {}
  left_sensor : tof_sensor := {}
  right_sensor : tof_sensor := {}
deriving DecidableEq, Repr

namespace servo

/-- `servo::init`: forwards target/angle bounds/gains to the PID controller
and the input bounds to both sensors. -/
def init (sv : servo) (target_angle angle_min angle_max input_min input_max
    kp ki kd : ℚ) : servo :=
  { sv with
    pid := sv.pid.init target_angle angle_min angle_max kp ki kd
    left_sensor := sv.left_sensor.init input_min input_max
    right_sensor := sv.right_sensor.init input_min input_max }

/-- `servo::target`. -/
def target (sv : servo) : ℚ := sv.pid.target

/-- `servo::output`. -/
def output (sv : servo) : ℚ := sv.pid.output

/-- `servo::input_range`: the left sensor's range. -/
def input_range (sv : servo) : ℚ := sv.left_sensor.input_range

/-- `servo::input_difference`: `left_sensor.val - right_sensor.val`. -/
def input_difference (sv : servo) : ℚ :=
  sv.left_sensor.val - sv.right_sensor.val

/-- `servo::input_ratio`: `((difference + range) / 2) / range`. -/
def input_ratio (sv : servo) : ℚ :=
  let scaled_input := (sv.input_difference + sv.input_range) / 2
  scaled_input / sv.input_range

/-- `servo::input_mapped`: `ratio * (target * 2)`. -/
def input_mapped (sv : servo) : ℚ :=
  sv.input_ratio * (sv.pid.target * 2)

/-- `servo::run`: reads both sensors (the two terminal inputs are the explicit
arguments), then regulates the PID controller on the mapped input. -/
def run (sv : servo) (left_val right_val : ℚ) : servo :=
  let sv1 := { sv with
    left_sensor := sv.left_sensor.read_from_terminal left_val
    right_sensor := sv.right_sensor.read_from_terminal right_val }
  { sv1 with pid := sv1.pid.regulate sv1.input_mapped }

end servo

/-!
## Helper lemmas
-/

/-- `regulate` leaves the configured output bounds untouched. -/
lemma pid_controller.regulate_output_min (c : pid_controller) (i : ℚ) :
    (c.regulate i).output_min = c.output_min := by
  simp only [pid_controller.regulate, pid_controller.check_output]
  split <;> try split
  all_goals rfl

/-- `regulate` leaves the configured output bounds untouched. -/
lemma pid_controller.regulate_output_max (c : pid_controller) (i : ℚ) :
    (c.regulate i).output_max = c.output_max := by
  simp only [pid_controller.regulate, pid_controller.check_output]
  split <;> try split
  all_goals rfl

/-- After `regulate`, the output lies in the configured window whenever that
window is nonempty (the clamp in `check_output` establishes it). -/
lemma pid_controller.regulate_output_mem (c : pid_controller) (i : ℚ)
    (h : c.output_min ≤ c.output_max) :
    c.output_min ≤ (c.regulate i).output ∧ (c.regulate i).output ≤ c.output_max := by
  simp only [pid_controller.regulate, pid_controller.check_output]
  split
  · exact ⟨le_refl _, h⟩
  · rename_i h1
    split
    · exact ⟨h, le_refl _⟩
    · rename_i h2
      dsimp only at h1 h2 ⊢
      exact ⟨not_lt.mp h1, not_lt.mp h2⟩

/-- The configured minimum bound is invariant under any call sequence. -/
lemma pid_controller.run_list_output_min (inputs : List ℚ) :
    ∀ c : pid_controller, (c.run_list inputs).output_min = c.output_min := by
  induction inputs with
  | nil => intro c; rfl
  | cons i rest ih =>
      intro c
      show ((c.regulate i).run_list rest).output_min = c.output_min
      rw [ih, c.regulate_output_min]

/-- The configured maximum bound is invariant under any call sequence. -/
lemma pid_controller.run_list_output_max (inputs : List ℚ) :
    ∀ c : pid_controller, (c.run_list inputs).output_max = c.output_max := by
  induction inputs with
  | nil => intro c; rfl
  | cons i rest ih =>
      intro c
      show ((c.regulate i).run_list rest).output_max = c.output_max
      rw [ih, c.regulate_output_max]

/-- A controller already in bounds stays in bounds through any call sequence. -/
lemma pid_controller.run_list_output_mem (inputs : List ℚ) :
    ∀ c : pid_controller, c.output_min ≤ c.output_max →
      c.output_min ≤ c.output → c.output ≤ c.output_max →
      c.output_min ≤ (c.run_list inputs).output ∧
        (c.run_list inputs).output ≤ c.output_max := by
  induction inputs with
  | nil => intro c _ h1 h2; exact ⟨h1, h2⟩
  | cons i rest ih =>
      intro c hw _ _
      show c.output_min ≤ ((c.regulate i).run_list rest).output ∧
        ((c.regulate i).run_list rest).output ≤ c.output_max
      have hb := c.regulate_output_mem i hw
      have hmin := c.regulate_output_min i
      have hmax := c.regulate_output_max i
      have h2 := ih (c.regulate i) (by rw [hmin, hmax]; exact hw)
        (by rw [hmin]; exact hb.1) (by rw [hmax]; exact hb.2)
      rw [hmin, hmax] at h2
      exact h2

/-!
## Claim theorems
-/

/-- C1: `regulate(new_input)` performs exactly this transition: with
`error = target - new_input`, the stored input becomes `new_input`, the
integral becomes `integral + error`, the derivative becomes
`error - last_error` with the pre-call `last_error`, `last_error` becomes
`error`, and the output becomes `target + kp*error + ki*integral +
kd*derivative` (with the updated integral) clamped to
`[output_min, output_max]` as the final step. -/
theorem C1_regulate_transition (c : pid_controller) (new_input : ℚ) :
    (c.regulate new_input).input = new_input ∧
    (c.regulate new_input).integrate = c.integrate + (c.target - new_input) ∧
    (c.regulate new_input).derivate = (c.target - new_input) - c.last_error ∧
    (c.regulate new_input).last_error = c.target - new_input ∧
    (c.regulate new_input).output =
      (if c.target + c.kp * (c.target - new_input)
            + c.ki * (c.integrate + (c.target - new_input))
            + c.kd * ((c.target - new_input) - c.last_error) < c.output_min
       then c.output_min
       else if c.target + c.kp * (c.target - new_input)
            + c.ki * (c.integrate + (c.target - new_input))
            + c.kd * ((c.target - new_input) - c.last_error) > c.output_max
       then c.output_max
       else c.target + c.kp * (c.target - new_input)
            + c.ki * (c.integrate + (c.target - new_input))
            + c.kd * ((c.target - new_input) - c.last_error)) := by
  simp only [pid_controller.regulate, pid_controller.check_output]
  split_ifs <;> simp_all

/-- C2: for every controller whose configured window satisfies
`output_min ≤ output_max` and every finite input sequence, after every call
(i.e. after each nonempty prefix of the sequence) the output lies within
`[output_min, output_max]`. -/
theorem C2_output_bound_invariant (c : pid_controller) (inputs : List ℚ)
    (n : ℕ) (hw : c.output_min ≤ c.output_max) (hn : n < inputs.length) :
    c.output_min ≤ (c.run_list (inputs.take (n + 1))).output ∧
      (c.run_list (inputs.take (n + 1))).output ≤ c.output_max := by
  cases inputs with
  | nil => simp at hn
  | cons i rest =>
      show c.output_min ≤ ((c.regulate i).run_list (rest.take n)).output ∧
        ((c.regulate i).run_list (rest.take n)).output ≤ c.output_max
      have hb := c.regulate_output_mem i hw
      have hmin := c.regulate_output_min i
      have hmax := c.regulate_output_max i
      have h2 := pid_controller.run_list_output_mem (rest.take n) (c.regulate i)
        (by rw [hmin, hmax]; exact hw) (by rw [hmin]; exact hb.1)
        (by rw [hmax]; exact hb.2)
      rw [hmin, hmax] at h2
      exact h2

/-- Witness for C2 at a concrete controller (window [0, 180], target 90,
gains 1, 0.01, 0.1) and the prefix of length 1 of the inputs [100, 300]. -/
theorem C2_output_bound_invariant_witness :
    ({ target := 90, kp := 1, ki := 1/100, kd := 1/10,
       output_max := 180 } : pid_controller).output_min ≤
      (({ target := 90, kp := 1, ki := 1/100, kd := 1/10,
          output_max := 180 } : pid_controller).run_list
        ([100, 300].take (0 + 1))).output ∧
    (({ target := 90, kp := 1, ki := 1/100, kd := 1/10,
        output_max := 180 } : pid_controller).run_list
      ([100, 300].take (0 + 1))).output ≤
      ({ target := 90, kp := 1, ki := 1/100, kd := 1/10,
         output_max := 180 } : pid_controller).output_max :=
  C2_output_bound_invariant _ [100, 300] 0 (by norm_num) (by norm_num)

/-- C6: `init(sensor_min, sensor_max)` stores `sensor_min` as the minimum iff
`sensor_min ≥ 0` (else 0), and stores `sensor_max` as the maximum iff
`sensor_max > sensor_min` compared against the caller-supplied minimum (else
the default 1023); the stored reading `val` is untouched. In particular
`init(-5, 10)` yields the window [0, 10]. -/
theorem C6_window_coercion (s : tof_sensor) (sensor_min sensor_max : ℚ) :
    ((s.init sensor_min sensor_max).min =
      if sensor_min ≥ 0 then sensor_min else 0) ∧
    ((s.init sensor_min sensor_max).max =
      if sensor_max > sensor_min then sensor_max else 1023) ∧
    (s.init sensor_min sensor_max).val = s.val ∧
    (tof_sensor.init {} (-5) 10).min = 0 ∧
    (tof_sensor.init {} (-5) 10).max = 10 := by
  refine ⟨rfl, rfl, rfl, ?_, ?_⟩ <;> norm_num [tof_sensor.init]

/-- C9: reconfiguring a controller via `init` sets exactly the six parameters
and leaves `integrate`, `last_error`, `output`, `input` (and `derivate`)
unchanged — reconfiguration never resets controller history. -/
theorem C9_reconfigure_preserves_history (c : pid_controller)
    (t lo hi p i d : ℚ) :
    (c.init t lo hi p i d).target = t ∧
    (c.init t lo hi p i d).output_min = lo ∧
    (c.init t lo hi p i d).output_max = hi ∧
    (c.init t lo hi p i d).kp = p ∧
    (c.init t lo hi p i d).ki = i ∧
    (c.init t lo hi p i d).kd = d ∧
    (c.init t lo hi p i d).integrate = c.integrate ∧
    (c.init t lo hi p i d).last_error = c.last_error ∧
    (c.init t lo hi p i d).output = c.output ∧
    (c.init t lo hi p i d).input = c.input ∧
    (c.init t lo hi p i d).derivate = c.derivate :=
  ⟨rfl, rfl, rfl, rfl, rfl, rfl, rfl, rfl, rfl, rfl, rfl⟩

/-- C10: for `sensor_min < 0` and `sensor_min < sensor_max < 0`, `init`
produces an inverted window: the stored minimum becomes 0, the stored maximum
becomes `sensor_max`, so `max < min` holds afterwards. -/
theorem C10_inverted_window (s : tof_sensor) (a b : ℚ)
    (h1 : a < 0) (h2 : a < b) (h3 : b < 0) :
    (s.init a b).min = 0 ∧ (s.init a b).max = b ∧
      (s.init a b).max < (s.init a b).min := by
  have hmin : (s.init a b).min = 0 := by
    simp only [tof_sensor.init]
    rw [if_neg (not_le.mpr h1)]
  have hmax : (s.init a b).max = b := by
    simp only [tof_sensor.init]
    rw [if_pos h2]
  exact ⟨hmin, hmax, by rw [hmin, hmax]; exact h3⟩

/-- Witness for C10 at the concrete call `init(-5, -3)` on a default sensor. -/
theorem C10_inverted_window_witness :
    (tof_sensor.init {} (-5) (-3)).min = 0 ∧
    (tof_sensor.init {} (-5) (-3)).max = -3 ∧
    (tof_sensor.init {} (-5) (-3)).max < (tof_sensor.init {} (-5) (-3)).min :=
  C10_inverted_window {} (-5) (-3) (by norm_num) (by norm_num) (by norm_num)

/-- C3: when the two sensors hold equal values and the shared window has
positive range, `input_ratio()` is exactly 1/2 and `input_mapped()` is
exactly the PID target. -/
theorem C3_balanced_fixed_point (sv : servo)
    (hval : sv.left_sensor.val = sv.right_sensor.val)
    (hw : sv.left_sensor.min < sv.left_sensor.max) :
    sv.input_ratio = 1/2 ∧ sv.input_mapped = sv.target := by
  have hr : sv.input_range ≠ 0 := by
    simp only [servo.input_range, tof_sensor.input_range]
    exact sub_ne_zero.mpr (ne_of_gt hw)
  have hd : sv.input_difference = 0 := by
    simp only [servo.input_difference, hval, sub_self]
  have hratio : sv.input_ratio = 1/2 := by
    simp only [servo.input_ratio, hd, zero_add]
    rw [div_div]
    rw [div_eq_div_iff (by positivity) (by norm_num)]
    ring
  refine ⟨hratio, ?_⟩
  simp only [servo.input_mapped, servo.target, hratio]
  ring

/-- Witness for C3 at a concrete balanced servo (target 90, default windows,
both sensors reading 42). -/
theorem C3_balanced_fixed_point_witness :
    ({ pid := { target := 90 }, left_sensor := { val := 42 },
       right_sensor := { val := 42 } } : servo).input_ratio = 1/2 ∧
    ({ pid := { target := 90 }, left_sensor := { val := 42 },
       right_sensor := { val := 42 } } : servo).input_mapped =
      ({ pid := { target := 90 }, left_sensor := { val := 42 },
         right_sensor := { val := 42 } } : servo).target :=
  C3_balanced_fixed_point _ rfl (by norm_num)

/-- C8: with a positive shared input range, a larger left reading gives a
positive difference and a ratio above 1/2; a larger right reading gives a
negative difference and a ratio below 1/2. -/
theorem C8_differential_sign (sv : servo) (hw : 0 < sv.input_range) :
    (sv.right_sensor.val < sv.left_sensor.val →
      0 < sv.input_difference ∧ 1/2 < sv.input_ratio) ∧
    (sv.left_sensor.val < sv.right_sensor.val →
      sv.input_difference < 0 ∧ sv.input_ratio < 1/2) := by
  constructor
  · intro h
    have hd : 0 < sv.input_difference := sub_pos.mpr h
    refine ⟨hd, ?_⟩
    simp only [servo.input_ratio]
    rw [div_div, lt_div_iff₀ (by positivity)]
    nlinarith
  · intro h
    have hd : sv.input_difference < 0 := sub_neg.mpr h
    refine ⟨hd, ?_⟩
    simp only [servo.input_ratio]
    rw [div_div, div_lt_iff₀ (by positivity)]
    nlinarith

/-- Witness for C8 at a concrete servo (default windows, left = 10, right = 5). -/
theorem C8_differential_sign_witness :
    0 < ({ left_sensor := { val := 10 },
           right_sensor := { val := 5 } } : servo).input_difference ∧
    1/2 < ({ left_sensor := { val := 10 },
             right_sensor := { val := 5 } } : servo).input_ratio :=
  (C8_differential_sign _
    (by norm_num [servo.input_range, tof_sensor.input_range])).1 (by norm_num)

/-- Counterexample for C5: a default-constructed sensor holds `val = 0`;
reconfiguring the window to [5, 10] via `init` leaves `val = 0` below the
new minimum, so `min ≤ val ≤ max` fails right after this mutation. -/
theorem C5_counterexample :
    ¬ ((tof_sensor.init {} 5 10).min ≤ (tof_sensor.init {} 5 10).val ∧
       (tof_sensor.init {} 5 10).val ≤ (tof_sensor.init {} 5 10).max) := by
  norm_num [tof_sensor.init]

/-- C5 amended: the invariant `min ≤ val ≤ max` holds after construction and
after every value assignment (read followed by the clamp), provided the
window satisfies `min ≤ max`; window reconfiguration via `init` does not
re-clamp the stored value and can therefore break the invariant. -/
theorem C5_clamp_invariant (s : tof_sensor) (v : ℚ) (h : s.min ≤ s.max) :
    ((s.read_from_terminal v).min ≤ (s.read_from_terminal v).val ∧
     (s.read_from_terminal v).val ≤ (s.read_from_terminal v).max) ∧
    (({} : tof_sensor).min ≤ ({} : tof_sensor).val ∧
     ({} : tof_sensor).val ≤ ({} : tof_sensor).max) := by
  refine ⟨?_, by norm_num⟩
  simp only [tof_sensor.read_from_terminal, tof_sensor.check_sensor_value]
  split
  · exact ⟨le_refl _, h⟩
  · rename_i h1
    split
    · exact ⟨h, le_refl _⟩
    · rename_i h2
      dsimp only at h1 h2 ⊢
      exact ⟨not_lt.mp h1, not_lt.mp h2⟩

/-- Witness for the amended C5 at a concrete sensor (default window [0, 1023],
assigned reading 2000, which the clamp pulls back to the window). -/
theorem C5_clamp_invariant_witness :
    ((({} : tof_sensor).read_from_terminal 2000).min ≤
        (({} : tof_sensor).read_from_terminal 2000).val ∧
     (({} : tof_sensor).read_from_terminal 2000).val ≤
        (({} : tof_sensor).read_from_terminal 2000).max) ∧
    (({} : tof_sensor).min ≤ ({} : tof_sensor).val ∧
     ({} : tof_sensor).val ≤ ({} : tof_sensor).max) :=
  C5_clamp_invariant {} 2000 (by norm_num)

/-- Feeding the target back as input from a state with zero integral and zero
last error keeps the accumulated state at zero; the raw output equals the
target, which survives the clamp when the target is inside the window. -/
lemma pid_controller.regulate_target_steady (c : pid_controller)
    (h0 : c.integrate = 0) (h1 : c.last_error = 0)
    (hlo : c.output_min ≤ c.target) (hhi : c.target ≤ c.output_max) :
    c.regulate c.target =
      { c with input := c.target, derivate := 0, output := c.target } := by
  simp only [pid_controller.regulate, pid_controller.check_output, h0, h1,
    sub_self, mul_zero, add_zero, zero_add, zero_sub, neg_zero, sub_zero]
  rw [if_neg (not_lt.mpr hlo), if_neg (not_lt.mpr hhi)]

/-- Repeatedly feeding the target back as input: the accumulated state stays
at zero, and once at least one call has happened the derivative term is zero
and the output sits exactly at the target. -/
lemma pid_controller.run_list_replicate_target (n : ℕ) :
    ∀ c : pid_controller, c.integrate = 0 → c.last_error = 0 →
      c.output_min ≤ c.target → c.target ≤ c.output_max →
      (c.run_list (List.replicate n c.target)).integrate = 0 ∧
      (c.run_list (List.replicate n c.target)).last_error = 0 ∧
      (1 ≤ n →
        (c.run_list (List.replicate n c.target)).derivate = 0 ∧
        (c.run_list (List.replicate n c.target)).output = c.target) := by
  induction n with
  | zero =>
      intro c h0 h1 _ _
      exact ⟨h0, h1, fun h => absurd h (by omega)⟩
  | succ n ih =>
      intro c h0 h1 hlo hhi
      have hstep := c.regulate_target_steady h0 h1 hlo hhi
      have htgt : (c.regulate c.target).target = c.target := by rw [hstep]
      have hmain := ih (c.regulate c.target)
        (by rw [hstep]; exact h0)
        (by rw [hstep]; exact h1)
        (by rw [hstep]; exact hlo)
        (by rw [hstep]; exact hhi)
      have hrep : List.replicate n (c.regulate c.target).target =
          List.replicate n c.target := by rw [htgt]
      rw [hrep] at hmain
      refine ⟨hmain.1, hmain.2.1, fun _ => ?_⟩
      cases n with
      | zero =>
          constructor
          · show (c.regulate c.target).derivate = 0
            rw [hstep]
          · show (c.regulate c.target).output = c.target
            rw [hstep]
      | succ m =>
          have h2 := hmain.2.2 (by omega)
          exact ⟨h2.1, h2.2.trans htgt⟩

/-- C7: a freshly constructed controller (`integral = last_error = output = 0`)
whose target lies within the output window keeps `integral = 0`,
`last_error = 0` (so each call's error is 0), a zero derivative term, and
output exactly at the target after every one of `n ≥ 1` repeated
`regulate(target)` calls. -/
theorem C7_zero_error_steady_state (c : pid_controller) (n : ℕ)
    (h0 : c.integrate = 0) (h1 : c.last_error = 0) (_h2 : c.output = 0)
    (hlo : c.output_min ≤ c.target) (hhi : c.target ≤ c.output_max)
    (hn : 1 ≤ n) :
    (c.run_list (List.replicate n c.target)).integrate = 0 ∧
    (c.run_list (List.replicate n c.target)).last_error = 0 ∧
    (c.run_list (List.replicate n c.target)).derivate = 0 ∧
    (c.run_list (List.replicate n c.target)).output = c.target := by
  have h := pid_controller.run_list_replicate_target n c h0 h1 hlo hhi
  exact ⟨h.1, h.2.1, (h.2.2 hn).1, (h.2.2 hn).2⟩

/-- Witness for C7: the default-constructed controller configured with
target 90, window [0, 180], gains 1, 0.01, 0.1, driven by three
`regulate(target)` calls. -/
theorem C7_zero_error_steady_state_witness :
    ((pid_controller.init {} 90 0 180 1 (1/100) (1/10)).run_list
      (List.replicate 3
        (pid_controller.init {} 90 0 180 1 (1/100) (1/10)).target)).integrate
        = 0 ∧
    ((pid_controller.init {} 90 0 180 1 (1/100) (1/10)).run_list
      (List.replicate 3
        (pid_controller.init {} 90 0 180 1 (1/100) (1/10)).target)).last_error
        = 0 ∧
    ((pid_controller.init {} 90 0 180 1 (1/100) (1/10)).run_list
      (List.replicate 3
        (pid_controller.init {} 90 0 180 1 (1/100) (1/10)).target)).derivate
        = 0 ∧
    ((pid_controller.init {} 90 0 180 1 (1/100) (1/10)).run_list
      (List.replicate 3
        (pid_controller.init {} 90 0 180 1 (1/100) (1/10)).target)).output
        = (pid_controller.init {} 90 0 180 1 (1/100) (1/10)).target :=
  C7_zero_error_steady_state _ 3 rfl rfl rfl
    (by norm_num [pid_controller.init]) (by norm_num [pid_controller.init])
    (by norm_num)

/-- Scenario A configuration: sensor window [0, 1023], target 90, output
window [0, 180], gains kp = 1, ki = 0.01, kd = 0.1 (src/servo.hpp defaults). -/
def scenarioA : servo := servo.init {} 90 0 180 0 1023 1 (1/100) (1/10)

/-- Scenario A after the two sensor readings left = 500, right = 700. -/
def scenarioA_read : servo :=
  { scenarioA with
    left_sensor := scenarioA.left_sensor.read_from_terminal 500
    right_sensor := scenarioA.right_sensor.read_from_terminal 700 }

/-- Scenario A after one full cycle: read 500 and 700, then regulate on the
mapped input. -/
def scenarioA_run : servo := scenarioA.run 500 700

/-- Counterexample for C4: on Scenario A the code produces
`input_ratio = 823/2046 ≈ 0.4022` (not ≈ 0.4007),
`input_mapped = 24690/341 ≈ 72.40` (not ≈ 72.13), and a regulated output of
`37350/341 ≈ 109.53` (not ≈ 109.84); each computed value differs from the
claimed figure by more than the precision at which the claim quotes it. -/
theorem C4_counterexample :
    scenarioA_read.input_ratio = 823/2046 ∧
    4007/10000 + 1/1000 < scenarioA_read.input_ratio ∧
    scenarioA_read.input_mapped = 24690/341 ∧
    7213/100 + 1/10 < scenarioA_read.input_mapped ∧
    scenarioA_run.pid.output = 37350/341 ∧
    scenarioA_run.pid.output + 1/10 < 10984/100 := by
  norm_num [scenarioA_read, scenarioA_run, scenarioA, servo.init, servo.run,
    servo.input_ratio, servo.input_difference, servo.input_range,
    servo.input_mapped, tof_sensor.init, tof_sensor.read_from_terminal,
    tof_sensor.check_sensor_value, tof_sensor.input_range, pid_controller.init,
    pid_controller.regulate, pid_controller.check_output]

/-- C4 amended: on Scenario A the exact values are
`input_difference = -200`, `input_range = 1023`,
`input_ratio = 823/2046 ≈ 0.4022`, `input_mapped = 24690/341 ≈ 72.40`;
one regulate call on the mapped value gives
`error = integral = derivative = 6000/341 ≈ 17.60` and
`output = 37350/341 ≈ 109.53`, which lies inside [0, 180] (unclamped). -/
theorem C4_scenarioA_exact :
    scenarioA_read.input_difference = -200 ∧
    scenarioA_read.input_range = 1023 ∧
    scenarioA_read.input_ratio = 823/2046 ∧
    scenarioA_read.input_mapped = 24690/341 ∧
    scenarioA_run.pid.last_error = 6000/341 ∧
    scenarioA_run.pid.integrate = 6000/341 ∧
    scenarioA_run.pid.derivate = 6000/341 ∧
    scenarioA_run.pid.output = 37350/341 ∧
    scenarioA_run.pid.output_min ≤ scenarioA_run.pid.output ∧
    scenarioA_run.pid.output ≤ scenarioA_run.pid.output_max := by
  norm_num [scenarioA_read, scenarioA_run, scenarioA, servo.init, servo.run,
    servo.input_ratio, servo.input_difference, servo.input_range,
    servo.input_mapped, tof_sensor.init, tof_sensor.read_from_terminal,
    tof_sensor.check_sensor_value, tof_sensor.input_range, pid_controller.init,
    pid_controller.regulate, pid_controller.check_output]
